import Mathlib

/-!
Shallow embedding of `intelligent-circuit-breaker.py` (the
`IntelligentCircuitBreaker` class): state machine, rolling outcome windows,
adaptive thresholds, the failure-probability heuristic, tenant isolation and
the persistence snapshot.  Machine floats are modelled as rationals; the
predicted failure probability, whose computation takes a square root, is
modelled as a real number.  Wall-clock readings are threaded as explicit
inputs: each external event carries the current time in seconds together
with the hour of day and the weekday index that `datetime.now()` would
report at that moment.
-/

/-- Last `n` elements of a list, as the Python slice `l[-n:]`. -/
def lastN (n : ℕ) (l : List α) : List α := l.drop (l.length - n)

/-- Append to a bounded `deque` with capacity `cap`: the oldest elements are
evicted once the capacity is exceeded. -/
def appendMax (cap : ℕ) (l : List α) (x : α) : List α :=
  let l' := l ++ [x]
  if cap < l'.length then lastN cap l' else l'

/-- Write a key in an association list, keeping the original position of an
existing key, as Python dict assignment does. -/
def updateAssoc (k : String) (v : α) : List (String × α) → List (String × α)
  | [] => [(k, v)]
  | (k', v') :: t => if k' = k then (k, v) :: t else (k', v') :: updateAssoc k v t

/-- Look a key up in an association list of lists; a missing key yields `[]`,
as with Python's `defaultdict(list)`. -/
def lookupOrNil (l : List (String × List ℚ)) (k : String) : List ℚ :=
  match l.find? (fun kv => decide (kv.1 = k)) with
  | some kv => kv.2
  | none => []

/-- Check whether the first character list starts with the second one. -/
def listStartsWith : List Char → List Char → Bool
  | [], _ => true
  | _ :: _, [] => false
  | a :: p, b :: l => a == b && listStartsWith p l

/-- Auxiliary scan for `strContains`. -/
def strContainsAux (n : List Char) : List Char → Bool
  | [] => listStartsWith n []
  | h :: t => listStartsWith n (h :: t) || strContainsAux n t

/-- Substring test, as the Python expression `needle in hay`. -/
def strContains (hay needle : String) : Bool :=
  strContainsAux needle.data hay.data

/-- Arithmetic mean over rationals, as `np.mean`; `0` on the empty list. -/
def listMean (l : List ℚ) : ℚ := l.sum / l.length

/-- Population variance (the square of `np.std`). -/
def listVariance (l : List ℚ) : ℚ :=
  (l.map (fun x => (x - listMean l) ^ 2)).sum / l.length

/-- Population standard deviation, as `np.std`. -/
noncomputable def listStd (l : List ℚ) : ℝ := Real.sqrt ((listVariance l : ℚ) : ℝ)

/-- The four circuit breaker states of the `CircuitBreakerState` enum. -/
inductive CircuitBreakerState where
  | CLOSED
  | OPEN
  | HALF_OPEN
  | FORCED_OPEN
  deriving DecidableEq

/-- The failure kinds of the `FailureType` enum. -/
inductive FailureType where
  | TIMEOUT
  | ERROR_RATE
  | LATENCY
  | RESOURCE_EXHAUSTION
  | DEPENDENCY_FAILURE
  | CUSTOM
  deriving DecidableEq

/-- The `.value` string of each `FailureType` member. -/
def FailureType.value : FailureType → String
  | .TIMEOUT => "timeout"
  | .ERROR_RATE => "error_rate"
  | .LATENCY => "latency"
  | .RESOURCE_EXHAUSTION => "resource_exhaustion"
  | .DEPENDENCY_FAILURE => "dependency_failure"
  | .CUSTOM => "custom"

/-- Static configuration (`CircuitBreakerConfig` dataclass), with its default
field values. -/
structure CircuitBreakerConfig where
  name : String := "cb"
  service : String := "svc"
  failure_threshold : ℤ := 5
  recovery_timeout : ℚ := 60
  test_request_count : ℤ := 3
  success_threshold : ℤ := 3
  timeout_duration : ℚ := 30
  error_rate_threshold : ℚ := 1/2
  latency_threshold : ℚ := 5
  window_size : ℤ := 100
  adaptive_thresholds : Bool := true
  ai_prediction : Bool := true
  school_specific : Bool := false
  deriving DecidableEq

/-- Per-request record (`RequestMetrics` dataclass). -/
structure RequestMetrics where
  timestamp : ℚ
  duration : ℚ
  success : Bool
  error_type : Option String
  response_code : Option ℤ
  school_id : Option String
  deriving DecidableEq

/-- Accumulated counters and gauges (`CircuitBreakerStats` dataclass). -/
structure CircuitBreakerStats where
  total_requests : ℕ
  successful_requests : ℕ
  failed_requests : ℕ
  rejected_requests : ℕ
  average_response_time : ℚ
  error_rate : ℚ
  state_changes : ℕ
  last_trip_time : Option ℚ
  recovery_time : Option ℚ
  adaptive_adjustments : ℕ
  deriving DecidableEq

/-- Which trip condition of `_check_trip_conditions` produced the recorded
trip reason string. -/
inductive TripReason where
  | noReason
  | failureCount
  | errorRate
  | latency
  | aiPrediction
  | schoolPattern
  deriving DecidableEq

/-- Reason tag carried by a `_notify_state_change` call.  A trip from
`HALF_OPEN` carries the `half_open_failure:` marker of the source. -/
inductive NotifyReason where
  | trip (r : TripReason) (during_half_open : Bool)
  | recoveryTest
  | recoveryComplete
  | forceOpenManual
  | forceCloseManual
  deriving DecidableEq

/-- One published state-change notification. -/
structure StateChangeNotification where
  from_state : CircuitBreakerState
  to_state : CircuitBreakerState
  reason : NotifyReason
  timestamp : ℚ
  deriving DecidableEq

/-- Mutable state of one `IntelligentCircuitBreaker` instance. -/
structure IntelligentCircuitBreaker where
  config : CircuitBreakerConfig
  state : CircuitBreakerState
  state_changed_at : ℚ
  failure_count : ℕ
  success_count : ℕ
  last_failure_time : Option ℚ
  request_window : List RequestMetrics
  latency_window : List ℚ
  adaptive_failure_threshold : ℤ
  adaptive_error_rate_threshold : ℚ
  adaptive_latency_threshold : ℚ
  failure_patterns : List (String × List ℚ)
  prediction_confidence : ℚ
  predicted_failure_probability : ℝ
  stats : CircuitBreakerStats
  school_metrics : List (String × RequestMetrics)
  notifications : List StateChangeNotification

/-- The zeroed statistics record built in `__init__`. -/
def initStats : CircuitBreakerStats :=
  { total_requests := 0
    successful_requests := 0
    failed_requests := 0
    rejected_requests := 0
    average_response_time := 0
    error_rate := 0
    state_changes := 0
    last_trip_time := none
    recovery_time := none
    adaptive_adjustments := 0 }

/-- Breaker state as produced by `__init__` (process start is time `0`). -/
def initBreaker (config : CircuitBreakerConfig) : IntelligentCircuitBreaker :=
  { config := config
    state := .CLOSED
    state_changed_at := 0
    failure_count := 0
    success_count := 0
    last_failure_time := none
    request_window := []
    latency_window := []
    adaptive_failure_threshold := config.failure_threshold
    adaptive_error_rate_threshold := config.error_rate_threshold
    adaptive_latency_threshold := config.latency_threshold
    failure_patterns := []
    prediction_confidence := 0
    predicted_failure_probability := 0
    stats := initStats
    school_metrics := []
    notifications := [] }

/-- Construction: `__init__` builds `deque` with `maxlen` equal to
`config.window_size`, and `deque` raises `ValueError` on a negative
`maxlen`; every other configuration constructs a breaker. -/
def mkBreaker (config : CircuitBreakerConfig) :
    Except String IntelligentCircuitBreaker :=
  if config.window_size < 0 then .error "maxlen must be non-negative"
  else .ok (initBreaker config)

/-- Record a state-change notification (`_notify_state_change`; the pub/sub
and database writes are modelled by appending to the notification log). -/
def notifyStateChange (now : ℚ) (from_state to_state : CircuitBreakerState)
    (reason : NotifyReason) (b : IntelligentCircuitBreaker) :
    IntelligentCircuitBreaker :=
  { b with notifications :=
      b.notifications ++ [⟨from_state, to_state, reason, now⟩] }

/-- Transition to `OPEN` (`_transition_to_open`). -/
def transitionToOpen (now : ℚ) (reason : NotifyReason)
    (b : IntelligentCircuitBreaker) : IntelligentCircuitBreaker :=
  let previous := b.state
  let b' := { b with
    state := .OPEN
    state_changed_at := now
    stats := { b.stats with
      last_trip_time := some now
      state_changes := b.stats.state_changes + 1 } }
  notifyStateChange now previous .OPEN reason b'

/-- Transition to `HALF_OPEN` (`_transition_to_half_open`). -/
def transitionToHalfOpen (now : ℚ) (b : IntelligentCircuitBreaker) :
    IntelligentCircuitBreaker :=
  let previous := b.state
  let b' := { b with
    state := .HALF_OPEN
    state_changed_at := now
    success_count := 0
    stats := { b.stats with state_changes := b.stats.state_changes + 1 } }
  notifyStateChange now previous .HALF_OPEN .recoveryTest b'

/-- Transition to `CLOSED` (`_transition_to_closed`). -/
def transitionToClosed (now : ℚ) (b : IntelligentCircuitBreaker) :
    IntelligentCircuitBreaker :=
  let previous := b.state
  let recovery := match b.stats.last_trip_time with
    | some t => some (now - t)
    | none => b.stats.recovery_time
  let b' := { b with
    state := .CLOSED
    state_changed_at := now
    failure_count := 0
    success_count := 0
    stats := { b.stats with
      state_changes := b.stats.state_changes + 1
      recovery_time := recovery } }
  notifyStateChange now previous .CLOSED .recoveryComplete b'

/-- Admission decision (`_should_reject_request`): the returned boolean says
whether the request is rejected; in the `OPEN` state with the recovery
timeout elapsed the method also transitions the breaker to `HALF_OPEN`. -/
def shouldRejectRequest (now : ℚ) (b : IntelligentCircuitBreaker) :
    Bool × IntelligentCircuitBreaker :=
  match b.state with
  | .CLOSED => (false, b)
  | .OPEN =>
    if now - b.state_changed_at ≥ b.config.recovery_timeout then
      (false, transitionToHalfOpen now b)
    else (true, b)
  | .HALF_OPEN =>
    (decide ((b.success_count : ℤ) ≥ b.config.test_request_count), b)
  | .FORCED_OPEN => (true, b)

/-- Number of tracked schools whose last recorded outcome is a failure less
than 5 minutes old (the loop body of `_check_school_specific_patterns`). -/
def failedSchoolsCount (now : ℚ) (b : IntelligentCircuitBreaker) : ℕ :=
  (b.school_metrics.filter
    (fun kv => decide (now - kv.2.timestamp < 300) && !kv.2.success)).length

/-- Tenant-isolation check (`_check_school_specific_patterns`). -/
def checkSchoolPatterns (now : ℚ) (b : IntelligentCircuitBreaker) : Bool :=
  if !b.config.school_specific || b.school_metrics.length < 3 then false
  else
    decide ((failedSchoolsCount now b : ℚ) / (b.school_metrics.length : ℚ) > 1/2)

/-- Trip condition 1: consecutive failure count at or above the adaptive
failure threshold. -/
def tripCondFailureCount (b : IntelligentCircuitBreaker) : Bool :=
  decide ((b.failure_count : ℤ) ≥ b.adaptive_failure_threshold)

/-- Error rate over the most recent twenty outcomes, with the denominator
`min 20 (window length)` of the source. -/
def errorRateRecent (b : IntelligentCircuitBreaker) : ℚ :=
  (((lastN 20 b.request_window).filter (fun r => !r.success)).length : ℚ) /
    ((min 20 b.request_window.length : ℕ) : ℚ)

/-- Trip condition 2: recent error rate at or above the adaptive error-rate
threshold, evaluated only once the window holds at least ten outcomes. -/
def tripCondErrorRate (b : IntelligentCircuitBreaker) : Bool :=
  decide (10 ≤ b.request_window.length) &&
    decide (errorRateRecent b ≥ b.adaptive_error_rate_threshold)

/-- Trip condition 3: mean of the last ten latency samples at or above the
adaptive latency threshold, evaluated only with at least five samples. -/
def tripCondLatency (b : IntelligentCircuitBreaker) : Bool :=
  decide (5 ≤ b.latency_window.length) &&
    decide (listMean (lastN 10 b.latency_window) ≥ b.adaptive_latency_threshold)

/-- Trip condition 4: predicted failure probability above `0.8`, only with
the `ai_prediction` flag set. -/
noncomputable def tripCondAi (b : IntelligentCircuitBreaker) : Bool :=
  b.config.ai_prediction && decide (b.predicted_failure_probability > 4/5)

/-- Trip condition 5: school-specific pattern, only with the
`school_specific` flag set. -/
def tripCondSchool (now : ℚ) (b : IntelligentCircuitBreaker) : Bool :=
  b.config.school_specific && checkSchoolPatterns now b

/-- Evaluation part of `_check_trip_conditions`: `should_trip` starts false
and `trip_reason` empty, and every satisfied condition overwrites both. -/
noncomputable def checkTripConditions (now : ℚ) (b : IntelligentCircuitBreaker) :
    Bool × TripReason :=
  let r0 := (false, TripReason.noReason)
  let r1 := if tripCondFailureCount b then (true, TripReason.failureCount) else r0
  let r2 := if tripCondErrorRate b then (true, TripReason.errorRate) else r1
  let r3 := if tripCondLatency b then (true, TripReason.latency) else r2
  let r4 := if tripCondAi b then (true, TripReason.aiPrediction) else r3
  if tripCondSchool now b then (true, TripReason.schoolPattern) else r4

/-- Threshold recalibration (`_update_adaptive_thresholds`). -/
def updateAdaptiveThresholds (hour weekday : ℕ) (b : IntelligentCircuitBreaker) :
    IntelligentCircuitBreaker :=
  if b.request_window.length < 50 then b
  else
    let recent_requests := lastN 50 b.request_window
    let traffic_volume := recent_requests.length
    let avg_latency := listMean (recent_requests.map (fun r => r.duration))
    let is_peak_hour := decide (9 ≤ hour) && decide (hour ≤ 17)
    let is_weekend := decide (5 ≤ weekday)
    let new_failure_threshold : ℤ :=
      if 40 < traffic_volume then min (b.config.failure_threshold + 2) 10
      else if traffic_volume < 10 then max (b.config.failure_threshold - 1) 2
      else b.config.failure_threshold
    let new_error_rate_threshold : ℚ :=
      if is_peak_hour && !is_weekend then
        min (b.adaptive_error_rate_threshold + 1/10) (4/5)
      else max (b.adaptive_error_rate_threshold - 1/20) (1/5)
    let new_latency_threshold : ℚ :=
      if avg_latency < b.adaptive_latency_threshold * (1/2) then
        max (b.adaptive_latency_threshold * (9/10)) 1
      else if avg_latency > b.adaptive_latency_threshold * (3/2) then
        min (b.adaptive_latency_threshold * (6/5)) 30
      else b.adaptive_latency_threshold
    { b with
      adaptive_failure_threshold :=
        if 1 ≤ |new_failure_threshold - b.adaptive_failure_threshold| then
          new_failure_threshold
        else b.adaptive_failure_threshold
      adaptive_error_rate_threshold :=
        if 1/20 ≤ |new_error_rate_threshold - b.adaptive_error_rate_threshold| then
          new_error_rate_threshold
        else b.adaptive_error_rate_threshold
      adaptive_latency_threshold :=
        if 1/2 ≤ |new_latency_threshold - b.adaptive_latency_threshold| then
          new_latency_threshold
        else b.adaptive_latency_threshold
      stats := { b.stats with adaptive_adjustments :=
        b.stats.adaptive_adjustments +
          (if 1 ≤ |new_failure_threshold - b.adaptive_failure_threshold| ∨
              1/20 ≤ |new_error_rate_threshold - b.adaptive_error_rate_threshold| ∨
              1/2 ≤ |new_latency_threshold - b.adaptive_latency_threshold| then 1
           else 0) } }

/-- Failure-probability heuristic (`_calculate_failure_probability`); returns
the predicted probability and the prediction confidence.  Bucket selection is
the Python substring test `"_" + hour in pattern_key`. -/
noncomputable def calculateFailureProbability
    (failure_patterns : List (String × List ℚ)) (window_len : ℕ) (hour : ℕ) :
    ℝ × ℚ :=
  if failure_patterns = [] then (0, 0)
  else
    let needle := "_" ++ Nat.repr hour
    let current_patterns := failure_patterns.foldl
      (fun acc kv =>
        if strContains kv.1 needle && !kv.2.isEmpty then acc ++ lastN 10 kv.2
        else acc) []
    if current_patterns = [] then (0, 0)
    else
      let recent_failure_rate : ℚ :=
        (current_patterns.length : ℚ) / ((max window_len 1 : ℕ) : ℚ)
      let pattern_consistency : ℝ :=
        1 - listStd current_patterns / ((listMean current_patterns : ℚ) + 1/1000)
      let base_probability : ℚ := min (recent_failure_rate * 2) 1
      let pattern_weight : ℝ := min pattern_consistency 1
      ((base_probability : ℝ) * pattern_weight,
        min ((current_patterns.length : ℚ) / 50) 1)

/-- Record a failure pattern and refresh the prediction
(`_update_failure_patterns`, which ends by calling
`_calculate_failure_probability`). -/
noncomputable def updateFailurePatterns (hour : ℕ) (failure_type : FailureType)
    (duration : ℚ) (b : IntelligentCircuitBreaker) : IntelligentCircuitBreaker :=
  let pattern_key := failure_type.value ++ "_" ++ Nat.repr hour
  let appended := lookupOrNil b.failure_patterns pattern_key ++ [duration]
  let capped := if 100 < appended.length then lastN 100 appended else appended
  let patterns := updateAssoc pattern_key capped b.failure_patterns
  let p := calculateFailureProbability patterns b.request_window.length hour
  { b with
    failure_patterns := patterns
    predicted_failure_probability := p.1
    prediction_confidence := p.2 }

/-- Success path (`_record_success`).  The subtraction on `failure_count` is
Python's `max(0, failure_count - 1)`, which truncated subtraction matches. -/
def recordSuccess (now : ℚ) (hour weekday : ℕ) (duration : ℚ)
    (school_id : Option String) (b : IntelligentCircuitBreaker) :
    IntelligentCircuitBreaker :=
  let b1 := { b with
    stats := { b.stats with
      total_requests := b.stats.total_requests + 1
      successful_requests := b.stats.successful_requests + 1 }
    success_count := b.success_count + 1
    failure_count := b.failure_count - 1 }
  let metrics : RequestMetrics := ⟨now, duration, true, none, some 200, school_id⟩
  let b2 := { b1 with
    request_window := appendMax b1.config.window_size.toNat b1.request_window metrics
    latency_window := appendMax 50 b1.latency_window duration }
  let b3 := match school_id with
    | some sid => { b2 with school_metrics := updateAssoc sid metrics b2.school_metrics }
    | none => b2
  let b4 :=
    if decide (b3.state = CircuitBreakerState.HALF_OPEN) &&
        decide ((b3.success_count : ℤ) ≥ b3.config.success_threshold)
    then transitionToClosed now b3 else b3
  if b4.config.adaptive_thresholds then updateAdaptiveThresholds hour weekday b4
  else b4

/-- Bookkeeping prefix of `_record_failure`, up to but not including
`_check_trip_conditions`. -/
def recordFailurePre (now : ℚ) (failure_type : FailureType) (duration : ℚ)
    (school_id : Option String) (b : IntelligentCircuitBreaker) :
    IntelligentCircuitBreaker :=
  let b1 := { b with
    stats := { b.stats with
      total_requests := b.stats.total_requests + 1
      failed_requests := b.stats.failed_requests + 1 }
    failure_count := b.failure_count + 1
    success_count := 0
    last_failure_time := some now }
  let metrics : RequestMetrics :=
    ⟨now, duration, false, some failure_type.value, some 500, school_id⟩
  let b2 := { b1 with
    request_window := appendMax b1.config.window_size.toNat b1.request_window metrics
    latency_window := appendMax 50 b1.latency_window duration }
  match school_id with
  | some sid => { b2 with school_metrics := updateAssoc sid metrics b2.school_metrics }
  | none => b2

/-- Failure path (`_record_failure`): bookkeeping, then the trip check with
its `CLOSED`/`HALF_OPEN` transition, then the pattern update. -/
noncomputable def recordFailure (now : ℚ) (hour : ℕ) (failure_type : FailureType)
    (duration : ℚ) (school_id : Option String) (b : IntelligentCircuitBreaker) :
    IntelligentCircuitBreaker :=
  let b1 := recordFailurePre now failure_type duration school_id b
  let tr := checkTripConditions now b1
  let b2 :=
    if tr.1 && decide (b1.state = .CLOSED) then
      transitionToOpen now (.trip tr.2 false) b1
    else if tr.1 && decide (b1.state = .HALF_OPEN) then
      transitionToOpen now (.trip tr.2 true) b1
    else b1
  updateFailurePatterns hour failure_type duration b2

/-- Outcome of the wrapped call when admitted: normal return, deadline
expiry (`asyncio.TimeoutError`) or a raised downstream error. -/
inductive Outcome where
  | ok (duration : ℚ)
  | timedOut (duration : ℚ)
  | errored (duration : ℚ)
  deriving DecidableEq

/-- What `call` does for the caller: reject with
`CircuitBreakerOpenException`, return the result, or re-raise. -/
inductive CallResult where
  | rejected
  | succeeded
  | raisedTimeout
  | raisedError
  deriving DecidableEq

/-- The public gate (`call`): admission check, then the success or failure
path.  A timeout records `FailureType.TIMEOUT`, any other exception records
`FailureType.ERROR_RATE`, as in the two `except` arms. -/
noncomputable def call (now : ℚ) (hour weekday : ℕ) (outcome : Outcome)
    (school_id : Option String) (b : IntelligentCircuitBreaker) :
    CallResult × IntelligentCircuitBreaker :=
  let r := shouldRejectRequest now b
  if r.1 then
    (.rejected, { r.2 with stats :=
      { r.2.stats with rejected_requests := r.2.stats.rejected_requests + 1 } })
  else
    match outcome with
    | .ok d => (.succeeded, recordSuccess now hour weekday d school_id r.2)
    | .timedOut d => (.raisedTimeout, recordFailure now hour .TIMEOUT d school_id r.2)
    | .errored d => (.raisedError, recordFailure now hour .ERROR_RATE d school_id r.2)

/-- Manual `force_open`. -/
def forceOpen (now : ℚ) (b : IntelligentCircuitBreaker) :
    IntelligentCircuitBreaker :=
  let previous := b.state
  let b' := { b with
    state := .FORCED_OPEN
    state_changed_at := now
    stats := { b.stats with state_changes := b.stats.state_changes + 1 } }
  notifyStateChange now previous .FORCED_OPEN .forceOpenManual b'

/-- Manual `force_close`. -/
def forceClose (now : ℚ) (b : IntelligentCircuitBreaker) :
    IntelligentCircuitBreaker :=
  let previous := b.state
  let b' := { b with
    state := .CLOSED
    state_changed_at := now
    failure_count := 0
    success_count := 0
    stats := { b.stats with state_changes := b.stats.state_changes + 1 } }
  notifyStateChange now previous .CLOSED .forceCloseManual b'

/-- One external event: a mediated call with the wall-clock readings of that
moment, or a manual force action. -/
inductive Event where
  | call (now : ℚ) (hour weekday : ℕ) (outcome : Outcome) (school_id : Option String)
  | forceOpenAt (now : ℚ)
  | forceCloseAt (now : ℚ)

/-- Apply one event to the breaker state. -/
noncomputable def step (e : Event) (b : IntelligentCircuitBreaker) :
    IntelligentCircuitBreaker :=
  match e with
  | .call now hour weekday outcome school_id =>
    (call now hour weekday outcome school_id b).2
  | .forceOpenAt now => forceOpen now b
  | .forceCloseAt now => forceClose now b

/-- Run a breaker from construction through a sequence of events. -/
noncomputable def runEvents (config : CircuitBreakerConfig) (events : List Event) :
    IntelligentCircuitBreaker :=
  events.foldl (fun b e => step e b) (initBreaker config)

/-- Observable status record returned by `get_status`. -/
structure BreakerStatus where
  name : String
  service : String
  state : CircuitBreakerState
  state_changed_at : ℚ
  failure_count : ℕ
  success_count : ℕ
  failure_threshold : ℤ
  error_rate_threshold : ℚ
  latency_threshold : ℚ
  failure_probability : ℝ
  confidence : ℚ
  stats : CircuitBreakerStats
  request_window_size : ℕ
  school_metrics_count : ℕ

/-- Public status (`get_status`). -/
def getStatus (b : IntelligentCircuitBreaker) : BreakerStatus :=
  { name := b.config.name
    service := b.config.service
    state := b.state
    state_changed_at := b.state_changed_at
    failure_count := b.failure_count
    success_count := b.success_count
    failure_threshold := b.adaptive_failure_threshold
    error_rate_threshold := b.adaptive_error_rate_threshold
    latency_threshold := b.adaptive_latency_threshold
    failure_probability := b.predicted_failure_probability
    confidence := b.prediction_confidence
    stats := b.stats
    request_window_size := b.request_window.length
    school_metrics_count := b.school_metrics.length }

/-- The serialized snapshot written by `_persist_state`. -/
structure StateSnapshot where
  state : CircuitBreakerState
  state_changed_at : ℚ
  failure_count : ℕ
  success_count : ℕ
  adaptive_failure_threshold : ℤ
  adaptive_error_rate_threshold : ℚ
  adaptive_latency_threshold : ℚ
  predicted_failure_probability : ℝ
  stats : CircuitBreakerStats

/-- Build the snapshot (`_persist_state`). -/
def persistStateSnapshot (b : IntelligentCircuitBreaker) : StateSnapshot :=
  { state := b.state
    state_changed_at := b.state_changed_at
    failure_count := b.failure_count
    success_count := b.success_count
    adaptive_failure_threshold := b.adaptive_failure_threshold
    adaptive_error_rate_threshold := b.adaptive_error_rate_threshold
    adaptive_latency_threshold := b.adaptive_latency_threshold
    predicted_failure_probability := b.predicted_failure_probability
    stats := b.stats }

/-- Restore from a snapshot (`_load_state_from_redis`): only the listed
fields are written back; of the statistics only the six counters are
restored, and the windows, school metrics, failure patterns and the
prediction confidence are left as they are in `b`. -/
def loadStateSnapshot (b : IntelligentCircuitBreaker) (s : StateSnapshot) :
    IntelligentCircuitBreaker :=
  { b with
    state := s.state
    state_changed_at := s.state_changed_at
    failure_count := s.failure_count
    success_count := s.success_count
    adaptive_failure_threshold := s.adaptive_failure_threshold
    adaptive_error_rate_threshold := s.adaptive_error_rate_threshold
    adaptive_latency_threshold := s.adaptive_latency_threshold
    predicted_failure_probability := s.predicted_failure_probability
    stats := { b.stats with
      total_requests := s.stats.total_requests
      successful_requests := s.stats.successful_requests
      failed_requests := s.stats.failed_requests
      rejected_requests := s.stats.rejected_requests
      state_changes := s.stats.state_changes
      adaptive_adjustments := s.stats.adaptive_adjustments } }

/-! Helper lemmas. -/

theorem lastN_length (n : ℕ) (l : List α) : (lastN n l).length = min n l.length := by
  simp [lastN]; omega

/-- Config and adaptive thresholds, bundled for preservation lemmas. -/
def adaptivePart (b : IntelligentCircuitBreaker) :
    CircuitBreakerConfig × ℤ × ℚ × ℚ :=
  (b.config, b.adaptive_failure_threshold, b.adaptive_error_rate_threshold,
    b.adaptive_latency_threshold)

theorem adaptivePart_notifyStateChange (now : ℚ) (f t : CircuitBreakerState)
    (r : NotifyReason) (b : IntelligentCircuitBreaker) :
    adaptivePart (notifyStateChange now f t r b) = adaptivePart b := rfl

theorem adaptivePart_transitionToOpen (now : ℚ) (r : NotifyReason)
    (b : IntelligentCircuitBreaker) :
    adaptivePart (transitionToOpen now r b) = adaptivePart b := rfl

theorem adaptivePart_transitionToHalfOpen (now : ℚ) (b : IntelligentCircuitBreaker) :
    adaptivePart (transitionToHalfOpen now b) = adaptivePart b := rfl

theorem adaptivePart_transitionToClosed (now : ℚ) (b : IntelligentCircuitBreaker) :
    adaptivePart (transitionToClosed now b) = adaptivePart b := rfl

theorem adaptivePart_forceOpen (now : ℚ) (b : IntelligentCircuitBreaker) :
    adaptivePart (forceOpen now b) = adaptivePart b := rfl

theorem adaptivePart_forceClose (now : ℚ) (b : IntelligentCircuitBreaker) :
    adaptivePart (forceClose now b) = adaptivePart b := rfl

theorem adaptivePart_recordFailurePre (now : ℚ) (ft : FailureType) (dur : ℚ)
    (sid : Option String) (b : IntelligentCircuitBreaker) :
    adaptivePart (recordFailurePre now ft dur sid b) = adaptivePart b := by
  unfold recordFailurePre; cases sid <;> rfl

theorem adaptivePart_updateFailurePatterns (hour : ℕ) (ft : FailureType) (dur : ℚ)
    (b : IntelligentCircuitBreaker) :
    adaptivePart (updateFailurePatterns hour ft dur b) = adaptivePart b := rfl

theorem adaptivePart_recordFailure (now : ℚ) (hour : ℕ) (ft : FailureType) (dur : ℚ)
    (sid : Option String) (b : IntelligentCircuitBreaker) :
    adaptivePart (recordFailure now hour ft dur sid b) = adaptivePart b := by
  unfold recordFailure
  simp only [adaptivePart_updateFailurePatterns]
  split
  · rw [adaptivePart_transitionToOpen, adaptivePart_recordFailurePre]
  · split
    · rw [adaptivePart_transitionToOpen, adaptivePart_recordFailurePre]
    · rw [adaptivePart_recordFailurePre]

theorem adaptivePart_shouldRejectRequest (now : ℚ) (b : IntelligentCircuitBreaker) :
    adaptivePart (shouldRejectRequest now b).2 = adaptivePart b := by
  unfold shouldRejectRequest
  split
  · rfl
  · split
    · rw [adaptivePart_transitionToHalfOpen]
    · rfl
  · rfl
  · rfl

theorem recordFailurePre_state (now : ℚ) (ft : FailureType) (dur : ℚ)
    (sid : Option String) (b : IntelligentCircuitBreaker) :
    (recordFailurePre now ft dur sid b).state = b.state := by
  unfold recordFailurePre; cases sid <;> rfl

theorem updateFailurePatterns_state (hour : ℕ) (ft : FailureType) (dur : ℚ)
    (b : IntelligentCircuitBreaker) :
    (updateFailurePatterns hour ft dur b).state = b.state := rfl

theorem transitionToOpen_state (now : ℚ) (r : NotifyReason)
    (b : IntelligentCircuitBreaker) :
    (transitionToOpen now r b).state = CircuitBreakerState.OPEN := rfl

theorem shouldRejectRequest_true_snd (now : ℚ) (b : IntelligentCircuitBreaker)
    (h : (shouldRejectRequest now b).1 = true) :
    (shouldRejectRequest now b).2 = b := by
  unfold shouldRejectRequest at h ⊢
  cases hs : b.state <;> simp only [hs, ge_iff_le] at h ⊢
  split_ifs at h ⊢ with hc
  rfl

theorem checkTripConditions_fst (now : ℚ) (b : IntelligentCircuitBreaker) :
    (checkTripConditions now b).1 =
      (tripCondFailureCount b || tripCondErrorRate b || tripCondLatency b ||
        tripCondAi b || tripCondSchool now b) := by
  unfold checkTripConditions
  rcases Bool.eq_false_or_eq_true (tripCondFailureCount b) with h1 | h1 <;>
  rcases Bool.eq_false_or_eq_true (tripCondErrorRate b) with h2 | h2 <;>
  rcases Bool.eq_false_or_eq_true (tripCondLatency b) with h3 | h3 <;>
  rcases Bool.eq_false_or_eq_true (tripCondAi b) with h4 | h4 <;>
  rcases Bool.eq_false_or_eq_true (tripCondSchool now b) with h5 | h5 <;>
  simp [h1, h2, h3, h4, h5]

/-! Concrete material for claim C1. -/

/-- Configuration of the C1 scenario: trip after 3 consecutive failures, no
adaptive thresholds, no AI prediction, no school isolation. -/
def cfgC1 : CircuitBreakerConfig :=
  { failure_threshold := 3, adaptive_thresholds := false, ai_prediction := false }

/-- An event of the C1 scenario: a call at hour 14 on a Monday. -/
def evC1 (t : ℚ) (o : Outcome) : Event := Event.call t 14 0 o none

/-- Three straight failures trip the breaker; after the recovery timeout two
probe successes decay `failure_count` from 3 to 1. -/
def trC1 : List Event :=
  [evC1 0 (.timedOut (1/10)), evC1 1 (.timedOut (1/10)), evC1 2 (.timedOut (1/10)),
   evC1 100 (.ok (1/10)), evC1 101 (.ok (1/10))]

/-- C1: refuted as stated.  The trace `trC1` reaches a `HALF_OPEN` state
(two probe successes have decayed `failure_count` to 1 while the adaptive
failure threshold is 3), and recording one further failure leaves the
breaker in `HALF_OPEN`: no trip condition holds, so the failure does not
transition the breaker back to `OPEN`. -/
theorem C1_counterexample :
    (runEvents cfgC1 trC1).state = CircuitBreakerState.HALF_OPEN ∧
    (runEvents cfgC1 (trC1 ++ [evC1 102 (Outcome.timedOut (1/10))])).state ≠
      CircuitBreakerState.OPEN := by
  constructor
  · with_unfolding_all rfl
  · have h : (runEvents cfgC1 (trC1 ++ [evC1 102 (Outcome.timedOut (1/10))])).state =
        CircuitBreakerState.HALF_OPEN := by with_unfolding_all rfl
    rw [h]; decide

/-- C1 (amended): in `HALF_OPEN`, a recorded failure transitions the breaker
back to `OPEN` exactly when some trip condition is satisfied after the
failure bookkeeping; when none is, the breaker stays `HALF_OPEN`. -/
theorem C1_half_open_failure_trip_iff (now : ℚ) (hour : ℕ) (ft : FailureType)
    (dur : ℚ) (sid : Option String) (b : IntelligentCircuitBreaker)
    (h : b.state = CircuitBreakerState.HALF_OPEN) :
    ((recordFailure now hour ft dur sid b).state = CircuitBreakerState.OPEN ↔
      (checkTripConditions now (recordFailurePre now ft dur sid b)).1 = true) ∧
    ((checkTripConditions now (recordFailurePre now ft dur sid b)).1 = false →
      (recordFailure now hour ft dur sid b).state = CircuitBreakerState.HALF_OPEN) := by
  have hpre : (recordFailurePre now ft dur sid b).state = CircuitBreakerState.HALF_OPEN := by
    rw [recordFailurePre_state, h]
  unfold recordFailure
  simp only [updateFailurePatterns_state]
  rcases Bool.eq_false_or_eq_true
      (checkTripConditions now (recordFailurePre now ft dur sid b)).1 with ht | ht <;>
    simp [ht, hpre, transitionToOpen_state]

/-- Witness state for the C1 amended theorem: a breaker probed in
`HALF_OPEN`. -/
def bC1w : IntelligentCircuitBreaker :=
  { initBreaker cfgC1 with state := CircuitBreakerState.HALF_OPEN }

/-- Witness for `C1_half_open_failure_trip_iff` at a concrete `HALF_OPEN`
breaker. -/
theorem C1_half_open_failure_trip_iff_witness :
    ((recordFailure 0 14 FailureType.TIMEOUT 1 none bC1w).state =
        CircuitBreakerState.OPEN ↔
      (checkTripConditions 0 (recordFailurePre 0 FailureType.TIMEOUT 1 none bC1w)).1 =
        true) ∧
    ((checkTripConditions 0 (recordFailurePre 0 FailureType.TIMEOUT 1 none bC1w)).1 =
        false →
      (recordFailure 0 14 FailureType.TIMEOUT 1 none bC1w).state =
        CircuitBreakerState.HALF_OPEN) :=
  C1_half_open_failure_trip_iff 0 14 FailureType.TIMEOUT 1 none bC1w rfl

/-- C2: while `OPEN`, a call before the recovery timeout is rejected with
`CircuitBreakerOpenException`, only the rejected counter changes and the
wrapped function is never invoked (the result does not depend on the
outcome argument); a call at or after the timeout first transitions the
breaker to `HALF_OPEN` and is admitted. -/
theorem C2_open_gate (now : ℚ) (hour weekday : ℕ) (o : Outcome)
    (sid : Option String) (b : IntelligentCircuitBreaker)
    (h : b.state = CircuitBreakerState.OPEN) :
    (now - b.state_changed_at < b.config.recovery_timeout →
      call now hour weekday o sid b =
        (CallResult.rejected,
          { b with stats :=
              { b.stats with rejected_requests := b.stats.rejected_requests + 1 } })) ∧
    (b.config.recovery_timeout ≤ now - b.state_changed_at →
      shouldRejectRequest now b = (false, transitionToHalfOpen now b) ∧
      (shouldRejectRequest now b).2.state = CircuitBreakerState.HALF_OPEN ∧
      (call now hour weekday o sid b).1 ≠ CallResult.rejected) := by
  have hsr : shouldRejectRequest now b =
      if b.config.recovery_timeout ≤ now - b.state_changed_at then
        (false, transitionToHalfOpen now b)
      else (true, b) := by
    unfold shouldRejectRequest
    simp only [h, ge_iff_le]
  constructor
  · intro hlt
    have hsr' : shouldRejectRequest now b = (true, b) := by
      rw [hsr, if_neg (not_le.mpr hlt)]
    unfold call
    rw [hsr']
    simp
  · intro hge
    have hsr' : shouldRejectRequest now b = (false, transitionToHalfOpen now b) := by
      rw [hsr, if_pos hge]
    refine ⟨hsr', by rw [hsr']; rfl, ?_⟩
    unfold call
    rw [hsr']
    cases o <;> simp

/-- Witness breaker for C2: freshly tripped to `OPEN` at time 0 with the
default 60-second recovery timeout. -/
def bC2w : IntelligentCircuitBreaker :=
  { initBreaker {} with state := CircuitBreakerState.OPEN }

/-- Witness for `C2_open_gate`: at `now = 10 < 60` the call is rejected and
only the rejected counter changes. -/
theorem C2_open_gate_witness :
    call 10 14 0 (Outcome.ok 1) none bC2w =
      (CallResult.rejected,
        { bC2w with stats :=
            { bC2w.stats with rejected_requests := bC2w.stats.rejected_requests + 1 } }) :=
  (C2_open_gate 10 14 0 (Outcome.ok 1) none bC2w rfl).1 (by norm_num [bC2w, initBreaker])

/-- C8: a rejected call leaves the breaker unchanged except for the
`rejected_requests` counter: the result is the distinct rejection error and
the post state is `b` with only that counter bumped, so the state, the
failure and success counts, the windows and all other counters are
untouched, and the wrapped function is never invoked (the outcome argument
does not appear in the result). -/
theorem C8_rejection_pure (now : ℚ) (hour weekday : ℕ) (o : Outcome)
    (sid : Option String) (b : IntelligentCircuitBreaker)
    (h : (shouldRejectRequest now b).1 = true) :
    (shouldRejectRequest now b).2 = b ∧
    call now hour weekday o sid b =
      (CallResult.rejected,
        { b with stats :=
            { b.stats with rejected_requests := b.stats.rejected_requests + 1 } }) := by
  have hsnd := shouldRejectRequest_true_snd now b h
  have hsr : shouldRejectRequest now b = (true, b) := by
    rw [Prod.ext_iff]; exact ⟨h, hsnd⟩
  refine ⟨hsnd, ?_⟩
  unfold call
  rw [hsr]
  simp

/-- Witness breaker for C8: a manually forced-open breaker, which rejects
every call. -/
def bC8w : IntelligentCircuitBreaker :=
  { initBreaker {} with state := CircuitBreakerState.FORCED_OPEN }

/-- Witness for `C8_rejection_pure` at the forced-open breaker. -/
theorem C8_rejection_pure_witness :
    (shouldRejectRequest 5 bC8w).2 = bC8w ∧
    call 5 14 0 (Outcome.errored 2) none bC8w =
      (CallResult.rejected,
        { bC8w with stats :=
            { bC8w.stats with rejected_requests := bC8w.stats.rejected_requests + 1 } }) :=
  C8_rejection_pure 5 14 0 (Outcome.errored 2) none bC8w rfl

/-! Concrete material for claim C3. -/

/-- Configuration of the C3 scenario: failure threshold 4, latency threshold
5 seconds, no adaptive thresholds, no AI prediction, no school isolation. -/
def cfgC3 : CircuitBreakerConfig :=
  { failure_threshold := 4, latency_threshold := 5,
    adaptive_thresholds := false, ai_prediction := false }

/-- An event of the C3 scenario: a call at hour 14 on a Monday. -/
def evC3 (t : ℚ) (o : Outcome) : Event := Event.call t 14 0 o none

/-- Four fast successes, then three slow failures: the next slow failure
satisfies both the failure-count condition and the latency condition for
the first time. -/
def trC3 : List Event :=
  [evC3 0 (.ok (1/10)), evC3 1 (.ok (1/10)), evC3 2 (.ok (1/10)), evC3 3 (.ok (1/10)),
   evC3 4 (.timedOut 10), evC3 5 (.timedOut 10), evC3 6 (.timedOut 10)]

/-- C3: refuted as stated.  At the failure recorded at `t = 7` the
consecutive-failure condition (condition 1) is satisfied, yet the evaluator
returns the latency reason (condition 3) because every satisfied condition
overwrites `trip_reason`; the breaker trips to `OPEN` and the notification
reports the latency reason, not the first satisfied condition. -/
theorem C3_counterexample :
    tripCondFailureCount
        (recordFailurePre 7 FailureType.TIMEOUT 10 none (runEvents cfgC3 trC3)) = true ∧
    checkTripConditions 7
        (recordFailurePre 7 FailureType.TIMEOUT 10 none (runEvents cfgC3 trC3)) =
      (true, TripReason.latency) ∧
    (runEvents cfgC3 (trC3 ++ [evC3 7 (Outcome.timedOut 10)])).state =
      CircuitBreakerState.OPEN ∧
    (runEvents cfgC3 (trC3 ++ [evC3 7 (Outcome.timedOut 10)])).notifications =
      [⟨CircuitBreakerState.CLOSED, CircuitBreakerState.OPEN,
        NotifyReason.trip TripReason.latency false, 7⟩] := by
  refine ⟨?_, ?_, ?_, ?_⟩ <;> with_unfolding_all rfl

/-- C3 (amended): the five trip conditions are evaluated in the listed
order, the breaker trips when any of them is satisfied, and the reported
trip reason is the one of the LAST satisfied condition (each satisfied
condition overwrites the reason of the earlier ones). -/
theorem C3_last_satisfied_supplies_reason (now : ℚ) (b : IntelligentCircuitBreaker) :
    checkTripConditions now b =
      (tripCondFailureCount b || tripCondErrorRate b || tripCondLatency b ||
          tripCondAi b || tripCondSchool now b,
        if tripCondSchool now b then TripReason.schoolPattern
        else if tripCondAi b then TripReason.aiPrediction
        else if tripCondLatency b then TripReason.latency
        else if tripCondErrorRate b then TripReason.errorRate
        else if tripCondFailureCount b then TripReason.failureCount
        else TripReason.noReason) := by
  unfold checkTripConditions
  rcases Bool.eq_false_or_eq_true (tripCondFailureCount b) with h1 | h1 <;>
  rcases Bool.eq_false_or_eq_true (tripCondErrorRate b) with h2 | h2 <;>
  rcases Bool.eq_false_or_eq_true (tripCondLatency b) with h3 | h3 <;>
  rcases Bool.eq_false_or_eq_true (tripCondAi b) with h4 | h4 <;>
  rcases Bool.eq_false_or_eq_true (tripCondSchool now b) with h5 | h5 <;>
  simp [h1, h2, h3, h4, h5]

/-- C6: with the school-specific flag set, at least three tracked tenants
and a strict majority of them showing a failure as their last outcome less
than five minutes old, the tenant-isolation check fires, and the trip
evaluation reports a trip regardless of the error-rate condition (or any
other condition). -/
theorem C6_tenant_isolation_trips (now : ℚ) (b : IntelligentCircuitBreaker)
    (hflag : b.config.school_specific = true)
    (hlen : 3 ≤ b.school_metrics.length)
    (hmaj : b.school_metrics.length < 2 * failedSchoolsCount now b) :
    checkSchoolPatterns now b = true ∧ (checkTripConditions now b).1 = true := by
  have hs : checkSchoolPatterns now b = true := by
    unfold checkSchoolPatterns
    rw [hflag]
    have hlt : ¬ b.school_metrics.length < 3 := not_lt.mpr hlen
    simp only [Bool.not_true, Bool.false_or, decide_eq_false hlt, Bool.false_eq_true,
      if_false, decide_eq_true_eq]
    have hpos : (0 : ℚ) < (b.school_metrics.length : ℚ) := by
      exact_mod_cast Nat.lt_of_lt_of_le (by norm_num) hlen
    rw [gt_iff_lt, lt_div_iff₀ hpos]
    have : (b.school_metrics.length : ℚ) < 2 * (failedSchoolsCount now b : ℚ) := by
      exact_mod_cast hmaj
    linarith
  refine ⟨hs, ?_⟩
  rw [checkTripConditions_fst]
  have h5 : tripCondSchool now b = true := by
    unfold tripCondSchool
    rw [hflag, hs]
    rfl
  rw [h5]
  simp

/-- Witness state for C6: four tracked schools, three of which recorded a
failure 100 seconds ago, one a success; the aggregate error-rate condition
is not consulted at all. -/
def bC6w : IntelligentCircuitBreaker :=
  { initBreaker { school_specific := true } with
    school_metrics :=
      [("school1", ⟨900, 1, false, some "timeout", some 500, some "school1"⟩),
       ("school2", ⟨900, 1, false, some "timeout", some 500, some "school2"⟩),
       ("school3", ⟨900, 1, false, some "timeout", some 500, some "school3"⟩),
       ("school4", ⟨900, 1, true, none, some 200, some "school4"⟩)] }

/-- Witness for `C6_tenant_isolation_trips`: 4 tenants tracked, 3 recently
failing, evaluated at `now = 1000`. -/
theorem C6_tenant_isolation_trips_witness :
    checkSchoolPatterns 1000 bC6w = true ∧ (checkTripConditions 1000 bC6w).1 = true := by
  have hcount : failedSchoolsCount 1000 bC6w = 3 := by with_unfolding_all rfl
  have hlen : bC6w.school_metrics.length = 4 := by with_unfolding_all rfl
  exact C6_tenant_isolation_trips 1000 bC6w rfl
    (by rw [hlen]; norm_num) (by rw [hlen, hcount]; norm_num)

/-! Invariant material for claims C4 and C10. -/

/-- The documented safety bounds, as a predicate on the static thresholds of
a configuration. -/
def configThresholdsInBounds (cfg : CircuitBreakerConfig) : Prop :=
  2 ≤ cfg.failure_threshold ∧ cfg.failure_threshold ≤ 10 ∧
  1/5 ≤ cfg.error_rate_threshold ∧ cfg.error_rate_threshold ≤ 4/5 ∧
  1 ≤ cfg.latency_threshold ∧ cfg.latency_threshold ≤ 30

/-- The documented safety bounds on the three adaptive thresholds: failure
count in `[2, 10]`, error rate in `[0.2, 0.8]`, latency in `[1, 30]`
seconds. -/
def thresholdsInBounds (b : IntelligentCircuitBreaker) : Prop :=
  2 ≤ b.adaptive_failure_threshold ∧ b.adaptive_failure_threshold ≤ 10 ∧
  1/5 ≤ b.adaptive_error_rate_threshold ∧ b.adaptive_error_rate_threshold ≤ 4/5 ∧
  1 ≤ b.adaptive_latency_threshold ∧ b.adaptive_latency_threshold ≤ 30

theorem thresholdsInBounds_of_adaptivePart_eq {a b : IntelligentCircuitBreaker}
    (h : adaptivePart a = adaptivePart b) (hb : thresholdsInBounds b) :
    thresholdsInBounds a := by
  simp only [adaptivePart, Prod.ext_iff] at h
  obtain ⟨-, haft, haer, halt⟩ := h
  unfold thresholdsInBounds
  rw [haft, haer, halt]
  exact hb

theorem config_of_adaptivePart_eq {a b : IntelligentCircuitBreaker}
    (h : adaptivePart a = adaptivePart b) : a.config = b.config :=
  congrArg (fun p => p.1) h

theorem updateAdaptiveThresholds_bounds (hour weekday : ℕ)
    (b : IntelligentCircuitBreaker) (hc : configThresholdsInBounds b.config)
    (hb : thresholdsInBounds b) :
    thresholdsInBounds (updateAdaptiveThresholds hour weekday b) := by
  obtain ⟨hc1, hc2, hc3, hc4, hc5, hc6⟩ := hc
  obtain ⟨h1, h2, h3, h4, h5, h6⟩ := hb
  unfold updateAdaptiveThresholds
  by_cases hw : b.request_window.length < 50
  · rw [if_pos hw]
    exact ⟨h1, h2, h3, h4, h5, h6⟩
  · rw [if_neg hw]
    have haer1 : 1/5 ≤ min (b.adaptive_error_rate_threshold + 1/10) (4/5) :=
      le_min (by linarith) (by norm_num)
    have haer2 : min (b.adaptive_error_rate_threshold + 1/10) (4/5) ≤ 4/5 :=
      min_le_right _ _
    have haer3 : 1/5 ≤ max (b.adaptive_error_rate_threshold - 1/20) (1/5) :=
      le_max_right _ _
    have haer4 : max (b.adaptive_error_rate_threshold - 1/20) (1/5) ≤ 4/5 :=
      max_le (by linarith) (by norm_num)
    have halt1 : 1 ≤ max (b.adaptive_latency_threshold * (9/10)) 1 := le_max_right _ _
    have halt2 : max (b.adaptive_latency_threshold * (9/10)) 1 ≤ 30 :=
      max_le (by linarith) (by norm_num)
    have halt3 : (1 : ℚ) ≤ min (b.adaptive_latency_threshold * (6/5)) 30 :=
      le_min (by linarith) (by norm_num)
    have halt4 : min (b.adaptive_latency_threshold * (6/5)) 30 ≤ 30 := min_le_right _ _
    refine ⟨?_, ?_, ?_, ?_, ?_, ?_⟩ <;> dsimp only <;> split_ifs <;>
      first | omega | assumption

theorem updateAdaptiveThresholds_config (hour weekday : ℕ)
    (b : IntelligentCircuitBreaker) :
    (updateAdaptiveThresholds hour weekday b).config = b.config := by
  simp only [updateAdaptiveThresholds]
  split_ifs <;> rfl

theorem recordSuccess_config (now : ℚ) (hour weekday : ℕ) (dur : ℚ)
    (sid : Option String) (b : IntelligentCircuitBreaker) :
    (recordSuccess now hour weekday dur sid b).config = b.config := by
  simp only [recordSuccess]
  cases sid <;> split_ifs <;>
    first
      | (rw [updateAdaptiveThresholds_config]; try rfl)
      | rfl

theorem recordSuccess_bounds (now : ℚ) (hour weekday : ℕ) (dur : ℚ)
    (sid : Option String) (b : IntelligentCircuitBreaker)
    (hc : configThresholdsInBounds b.config) (hb : thresholdsInBounds b) :
    thresholdsInBounds (recordSuccess now hour weekday dur sid b) := by
  simp only [recordSuccess]
  cases sid <;> split_ifs <;>
    first
      | exact updateAdaptiveThresholds_bounds hour weekday _ hc hb
      | exact hb

theorem step_config (e : Event) (b : IntelligentCircuitBreaker) :
    (step e b).config = b.config := by
  cases e with
  | call now hour weekday o sid =>
    simp only [step, call]
    split_ifs
    · exact config_of_adaptivePart_eq (adaptivePart_shouldRejectRequest now b)
    · cases o with
      | ok d =>
        rw [recordSuccess_config]
        exact config_of_adaptivePart_eq (adaptivePart_shouldRejectRequest now b)
      | timedOut d =>
        exact config_of_adaptivePart_eq
          ((adaptivePart_recordFailure now hour .TIMEOUT d sid _).trans
            (adaptivePart_shouldRejectRequest now b))
      | errored d =>
        exact config_of_adaptivePart_eq
          ((adaptivePart_recordFailure now hour .ERROR_RATE d sid _).trans
            (adaptivePart_shouldRejectRequest now b))
  | forceOpenAt now =>
    exact config_of_adaptivePart_eq (adaptivePart_forceOpen now b)
  | forceCloseAt now =>
    exact config_of_adaptivePart_eq (adaptivePart_forceClose now b)

theorem step_bounds (e : Event) (b : IntelligentCircuitBreaker)
    (hc : configThresholdsInBounds b.config) (hb : thresholdsInBounds b) :
    thresholdsInBounds (step e b) := by
  cases e with
  | call now hour weekday o sid =>
    simp only [step, call]
    split_ifs
    · exact thresholdsInBounds_of_adaptivePart_eq
        (adaptivePart_shouldRejectRequest now b) hb
    · cases o with
      | ok d =>
        refine recordSuccess_bounds now hour weekday d sid _ ?_ ?_
        · rw [config_of_adaptivePart_eq (adaptivePart_shouldRejectRequest now b)]
          exact hc
        · exact thresholdsInBounds_of_adaptivePart_eq
            (adaptivePart_shouldRejectRequest now b) hb
      | timedOut d =>
        exact thresholdsInBounds_of_adaptivePart_eq
          ((adaptivePart_recordFailure now hour .TIMEOUT d sid _).trans
            (adaptivePart_shouldRejectRequest now b)) hb
      | errored d =>
        exact thresholdsInBounds_of_adaptivePart_eq
          ((adaptivePart_recordFailure now hour .ERROR_RATE d sid _).trans
            (adaptivePart_shouldRejectRequest now b)) hb
  | forceOpenAt now =>
    exact thresholdsInBounds_of_adaptivePart_eq (adaptivePart_forceOpen now b) hb
  | forceCloseAt now =>
    exact thresholdsInBounds_of_adaptivePart_eq (adaptivePart_forceClose now b) hb

theorem foldl_step_bounds (es : List Event) :
    ∀ b : IntelligentCircuitBreaker, configThresholdsInBounds b.config →
      thresholdsInBounds b →
      thresholdsInBounds (List.foldl (fun b e => step e b) b es) := by
  induction es with
  | nil => exact fun b _ hb => hb
  | cons e t ih =>
    intro b hc hb
    exact ih _ (by rw [step_config]; exact hc) (step_bounds e b hc hb)

/-- C4: for every event sequence starting from a configuration whose static
thresholds lie within the documented safety bounds, the three adaptive
thresholds stay within those bounds: failure count in `[2, 10]`, error rate
in `[0.2, 0.8]`, latency in `[1, 30]` seconds. -/
theorem C4_adaptive_thresholds_bounded (cfg : CircuitBreakerConfig)
    (hc : configThresholdsInBounds cfg) (events : List Event) :
    thresholdsInBounds (runEvents cfg events) := by
  unfold runEvents
  exact foldl_step_bounds events (initBreaker cfg) hc hc

/-- Witness for `C4_adaptive_thresholds_bounded`: the default configuration
(thresholds 5, 0.5, 5.0) run through one failure call. -/
theorem C4_adaptive_thresholds_bounded_witness :
    thresholdsInBounds
      (runEvents {} [Event.call 0 14 0 (Outcome.timedOut 1) none]) :=
  C4_adaptive_thresholds_bounded {}
    (by refine ⟨?_, ?_, ?_, ?_, ?_, ?_⟩ <;> norm_num)
    [Event.call 0 14 0 (Outcome.timedOut 1) none]

/-! Dichotomy of the adaptive failure threshold (claim C10). -/

theorem updateAdaptiveThresholds_aft (hour weekday : ℕ)
    (b : IntelligentCircuitBreaker) :
    (updateAdaptiveThresholds hour weekday b).adaptive_failure_threshold =
        b.adaptive_failure_threshold ∨
      (updateAdaptiveThresholds hour weekday b).adaptive_failure_threshold =
        min (b.config.failure_threshold + 2) 10 := by
  unfold updateAdaptiveThresholds
  by_cases hw : b.request_window.length < 50
  · rw [if_pos hw]; left; rfl
  · rw [if_neg hw]
    have htv : 40 < (lastN 50 b.request_window).length := by
      rw [lastN_length]; omega
    dsimp only
    rw [if_pos htv]
    split_ifs
    · right; rfl
    · left; rfl

theorem recordSuccess_aft (now : ℚ) (hour weekday : ℕ) (dur : ℚ)
    (sid : Option String) (b : IntelligentCircuitBreaker) :
    (recordSuccess now hour weekday dur sid b).adaptive_failure_threshold =
        b.adaptive_failure_threshold ∨
      (recordSuccess now hour weekday dur sid b).adaptive_failure_threshold =
        min (b.config.failure_threshold + 2) 10 := by
  simp only [recordSuccess]
  cases sid <;> split_ifs <;>
    first
      | exact updateAdaptiveThresholds_aft hour weekday _
      | (left; rfl)

theorem step_aft (e : Event) (b : IntelligentCircuitBreaker) :
    (step e b).adaptive_failure_threshold = b.adaptive_failure_threshold ∨
      (step e b).adaptive_failure_threshold = min (b.config.failure_threshold + 2) 10 := by
  have haft : ∀ a c : IntelligentCircuitBreaker, adaptivePart a = adaptivePart c →
      a.adaptive_failure_threshold = c.adaptive_failure_threshold :=
    fun a c h => congrArg (fun p => p.2.1) h
  cases e with
  | call now hour weekday o sid =>
    simp only [step, call]
    split_ifs
    · left; exact haft _ _ (adaptivePart_shouldRejectRequest now b)
    · cases o with
      | ok d =>
        rcases recordSuccess_aft now hour weekday d sid
            (shouldRejectRequest now b).2 with h | h
        · left
          rw [h]
          exact haft _ _ (adaptivePart_shouldRejectRequest now b)
        · right
          rw [h, config_of_adaptivePart_eq (adaptivePart_shouldRejectRequest now b)]
      | timedOut d =>
        left
        exact haft _ _ ((adaptivePart_recordFailure now hour .TIMEOUT d sid _).trans
          (adaptivePart_shouldRejectRequest now b))
      | errored d =>
        left
        exact haft _ _ ((adaptivePart_recordFailure now hour .ERROR_RATE d sid _).trans
          (adaptivePart_shouldRejectRequest now b))
  | forceOpenAt now => left; exact haft _ _ (adaptivePart_forceOpen now b)
  | forceCloseAt now => left; exact haft _ _ (adaptivePart_forceClose now b)

theorem foldl_step_aft (cfg : CircuitBreakerConfig) (es : List Event) :
    ∀ b : IntelligentCircuitBreaker, b.config = cfg →
      (b.adaptive_failure_threshold = cfg.failure_threshold ∨
        b.adaptive_failure_threshold = min (cfg.failure_threshold + 2) 10) →
      ((List.foldl (fun b e => step e b) b es).adaptive_failure_threshold =
          cfg.failure_threshold ∨
        (List.foldl (fun b e => step e b) b es).adaptive_failure_threshold =
          min (cfg.failure_threshold + 2) 10) := by
  induction es with
  | nil => exact fun b _ hb => hb
  | cons e t ih =>
    intro b hcfg hb
    refine ih _ (by rw [step_config]; exact hcfg) ?_
    rcases step_aft e b with h | h
    · rw [h]; exact hb
    · right; rw [h, hcfg]

/-- C10: in every state reachable from construction through any event
sequence, the adaptive failure threshold equals either the configured
static failure threshold or `min (failure_threshold + 2) 10`: the
recalibration only runs once the window holds at least 50 samples, measures
traffic as the length of the last-50 slice (always exactly 50, hence above
the high-traffic cutoff, making the low-traffic decrease branch
unreachable), and always recomputes the new value from the static
configuration value, never from the previous adaptive value. -/
theorem C10_adaptive_failure_threshold_dichotomy (cfg : CircuitBreakerConfig)
    (events : List Event) :
    (runEvents cfg events).adaptive_failure_threshold = cfg.failure_threshold ∨
      (runEvents cfg events).adaptive_failure_threshold =
        min (cfg.failure_threshold + 2) 10 := by
  unfold runEvents
  exact foldl_step_aft cfg events (initBreaker cfg) rfl (Or.inl rfl)

/-! Material for claims C5, C7 and C9. -/

theorem qcast_mul_min_le_one (q : ℚ) (c : ℝ) (hq0 : 0 ≤ q) (hq1 : q ≤ 1) :
    (q : ℝ) * min c 1 ≤ 1 := by
  have h0 : (0 : ℝ) ≤ (q : ℝ) := by exact_mod_cast hq0
  have h1 : (q : ℝ) ≤ 1 := by exact_mod_cast hq1
  calc (q : ℝ) * min c 1 ≤ (q : ℝ) * 1 :=
        mul_le_mul_of_nonneg_left (min_le_right _ _) h0
    _ = (q : ℝ) := mul_one _
    _ ≤ 1 := h1

/-- C5: refuted as stated.  First conjunct: with the single bucket
`timeout_14` holding durations `[0, 0, 0, 0, 1]` and a window of length 5
at hour 14, the standard deviation (2/5) exceeds the mean (1/5) by more
than the `0.001` guard, the consistency factor is negative and is not
clamped below at 0, so the predicted probability is negative — outside
`[0, 1]`.  Second conjunct: at current hour 1 the bucket selection is the
substring test `"_1" in "timeout_14"`, so the hour-14 bucket is consulted
and yields a positive probability, refuting "only the buckets whose
hour-of-day equals the current hour". -/
theorem C5_counterexample :
    (calculateFailureProbability [("timeout_14", [0, 0, 0, 0, 1])] 5 14).1 < 0 ∧
    (calculateFailureProbability [("timeout_14", [5, 5, 5])] 10 1).1 > 0 := by
  constructor
  · have hc : strContains "timeout_14" ("_" ++ Nat.repr 14) = true := by decide
    have hstd : listStd [0, 0, 0, 0, 1] = 2/5 := by
      rw [listStd, show listVariance [0, 0, 0, 0, 1] = 4/25 by
        norm_num [listVariance, listMean]]
      rw [show (((4 : ℚ)/25 : ℚ) : ℝ) = ((2 : ℝ)/5) ^ 2 by norm_num]
      exact Real.sqrt_sq (by norm_num)
    simp [calculateFailureProbability, hc, lastN, hstd, listMean]
    norm_num
  · have hc : strContains "timeout_14" ("_" ++ Nat.repr 1) = true := by decide
    have hstd : listStd [5, 5, 5] = 0 := by
      rw [listStd, show listVariance [5, 5, 5] = 0 by norm_num [listVariance, listMean]]
      norm_num
    simp [calculateFailureProbability, hc, lastN, hstd, listMean]

/-- C5 (amended): the probability is recomputed from the buckets whose key
contains `_{current_hour}` as a substring (for current hours 1 and 2 this
also selects the buckets of hours 10-19 and 20-23), taking the last ten
durations of each; it equals
`min(count / max(window_length, 1) * 2, 1) * min(1 - std/(mean + 0.001), 1)`,
whose consistency factor is clamped above at 1 but not below at 0: the
result is always at most 1, but it is not always in `[0, 1]`. -/
theorem C5_probability_le_one (ps : List (String × List ℚ)) (wlen hour : ℕ) :
    (calculateFailureProbability ps wlen hour).1 ≤ 1 := by
  unfold calculateFailureProbability
  by_cases h1 : ps = []
  · rw [if_pos h1]
    norm_num
  · rw [if_neg h1]
    dsimp only
    split_ifs with h2
    · norm_num
    · dsimp only
      exact qcast_mul_min_le_one _ _ (le_min (by positivity) (by norm_num))
        (min_le_right _ _)

/-- Configuration of the C7 scenario (all defaults). -/
def cfgC7 : CircuitBreakerConfig := {}

/-- A reachable breaker with one successful call on record. -/
noncomputable def bC7 : IntelligentCircuitBreaker :=
  runEvents cfgC7 [Event.call 0 14 0 (Outcome.ok 1) none]

/-- C7: refuted as stated.  Persisting the breaker `bC7` (one success
recorded) and loading the snapshot into a fresh breaker of the same
configuration does not reproduce the observable `get_status` output: the
request window is not part of the snapshot, so the reloaded breaker
reports `request_window_size = 0` while the original reports 1. -/
theorem C7_counterexample :
    getStatus (loadStateSnapshot (initBreaker cfgC7) (persistStateSnapshot bC7)) ≠
      getStatus bC7 := by
  have h1 : (getStatus (loadStateSnapshot (initBreaker cfgC7)
      (persistStateSnapshot bC7))).request_window_size = 0 := by with_unfolding_all rfl
  have h2 : (getStatus bC7).request_window_size = 1 := by with_unfolding_all rfl
  intro h
  rw [h] at h1
  exact absurd (h1.symm.trans h2) (by decide)

/-- C7 (amended): the snapshot round-trip into a fresh breaker of the same
configuration restores exactly the persisted fields — state,
`state_changed_at`, the failure and success counts, the three adaptive
thresholds, the predicted failure probability and the six persisted
counters — while the windows, school metrics, failure patterns, prediction
confidence and the remaining stats fields are not restored. -/
theorem C7_roundtrip_restores_persisted_fields (b : IntelligentCircuitBreaker) :
    (loadStateSnapshot (initBreaker b.config) (persistStateSnapshot b)).state = b.state ∧
    (loadStateSnapshot (initBreaker b.config) (persistStateSnapshot b)).state_changed_at =
      b.state_changed_at ∧
    (loadStateSnapshot (initBreaker b.config) (persistStateSnapshot b)).failure_count =
      b.failure_count ∧
    (loadStateSnapshot (initBreaker b.config) (persistStateSnapshot b)).success_count =
      b.success_count ∧
    (loadStateSnapshot (initBreaker b.config)
        (persistStateSnapshot b)).adaptive_failure_threshold =
      b.adaptive_failure_threshold ∧
    (loadStateSnapshot (initBreaker b.config)
        (persistStateSnapshot b)).adaptive_error_rate_threshold =
      b.adaptive_error_rate_threshold ∧
    (loadStateSnapshot (initBreaker b.config)
        (persistStateSnapshot b)).adaptive_latency_threshold =
      b.adaptive_latency_threshold ∧
    (loadStateSnapshot (initBreaker b.config)
        (persistStateSnapshot b)).predicted_failure_probability =
      b.predicted_failure_probability ∧
    (loadStateSnapshot (initBreaker b.config) (persistStateSnapshot b)).stats.total_requests =
      b.stats.total_requests ∧
    (loadStateSnapshot (initBreaker b.config)
        (persistStateSnapshot b)).stats.successful_requests =
      b.stats.successful_requests ∧
    (loadStateSnapshot (initBreaker b.config) (persistStateSnapshot b)).stats.failed_requests =
      b.stats.failed_requests ∧
    (loadStateSnapshot (initBreaker b.config)
        (persistStateSnapshot b)).stats.rejected_requests =
      b.stats.rejected_requests ∧
    (loadStateSnapshot (initBreaker b.config) (persistStateSnapshot b)).stats.state_changes =
      b.stats.state_changes ∧
    (loadStateSnapshot (initBreaker b.config)
        (persistStateSnapshot b)).stats.adaptive_adjustments =
      b.stats.adaptive_adjustments :=
  ⟨rfl, rfl, rfl, rfl, rfl, rfl, rfl, rfl, rfl, rfl, rfl, rfl, rfl, rfl⟩

/-- Configuration with `window_size = 0`, accepted by the constructor. -/
def cfgC9 : CircuitBreakerConfig := { window_size := 0 }

/-- C9: refuted as stated.  Python's `deque` accepts `maxlen = 0`, so a
configuration with `window_size = 0` — non-positive — constructs a breaker
without raising. -/
theorem C9_counterexample :
    cfgC9.window_size ≤ 0 ∧ mkBreaker cfgC9 = Except.ok (initBreaker cfgC9) :=
  ⟨by decide, rfl⟩

/-- C9 (amended): construction fails exactly for a negative `window_size`
(the `deque` constructor raises `ValueError` on a negative `maxlen`); a
zero `window_size` is accepted and produces a breaker. -/
theorem C9_construction_fails_iff_negative (cfg : CircuitBreakerConfig) :
    (∃ msg, mkBreaker cfg = Except.error msg) ↔ cfg.window_size < 0 := by
  unfold mkBreaker
  split_ifs with h
  · exact ⟨fun _ => h, fun _ => ⟨_, rfl⟩⟩
  · constructor
    · rintro ⟨msg, hm⟩
      cases hm
    · exact fun hlt => absurd hlt h
